import Mathlib

/-!
Verification of the sqlmesh loader core: the content cache naming and
invalidation key, file-modification tracking, the loading pipeline with its
error taxonomy, the process-wide macro registry handling, schema propagation
diagnostics, and the airflow scheduler client wire protocol.

Shallow embedding conventions: file modification times (`st_mtime` floats in
the source) are modelled as natural-number timestamps, since the code only
compares them and takes maxima; filesystem paths are strings or lists of path
components; fallible operations return `Except`/`Option`.
-/

namespace SqlMesh

/-! ## Content cache: entry naming and invalidation key
From `SqlMeshLoader._Cache` in `sqlmesh/core/loader.py`. -/

/-- Strip `pat` from the front of `s`, returning the remainder when `pat` is
a prefix of `s`. -/
def stripPre : List Char → List Char → Option (List Char)
  | [], s => some s
  | _ :: _, [] => none
  | p :: ps, c :: cs => if p == c then stripPre ps cs else none

/-- Split a character list on a separator character; always returns at least
one (possibly empty) piece, like Python `str.split(sep)`. -/
def splitOnChar (sep : Char) : List Char → List (List Char)
  | [] => [[]]
  | c :: rest =>
    let r := splitOnChar sep rest
    if c == sep then [] :: r
    else
      match r with
      | [] => [[c]]
      | h :: t => (c :: h) :: t

/-- Python `pat in s` substring containment: the empty pattern is contained in
every string. -/
def containsSub (pat : List Char) : List Char → Bool
  | [] => pat == []
  | c :: rest => (stripPre pat (c :: rest)).isSome || containsSub pat rest

/-- Fueled worker for `pyReplace`; every step consumes at least one character
of the remaining input when the pattern is non-empty, so fuel equal to the
input length suffices. -/
def replaceAllGo (old new : List Char) : Nat → List Char → List Char
  | _, [] => []
  | 0, s => s
  | fuel + 1, c :: rest =>
    match stripPre old (c :: rest) with
    | some remainder => new ++ replaceAllGo old new fuel remainder
    | none => c :: replaceAllGo old new fuel rest

/-- Python `str.replace(old, new)`: replace every non-overlapping occurrence
of `old`, scanning left to right.  The source only ever replaces by the empty
string, for which Python's empty-pattern behavior is the identity, matching
the `old = ""` branch here. -/
def pyReplace (s old new : String) : String :=
  if old.data = [] then s
  else ⟨replaceAllGo old.data new.data s.data.length s.data⟩

/-- Python `pathlib.PurePath.suffix` of a final path component: the substring
from the last dot onward, provided that dot is neither the first nor the last
character of the name; otherwise the empty string. -/
def pathSuffix (name : String) : String :=
  let parts := splitOnChar (Char.ofNat 46) name.data
  match parts with
  | [] => ""
  | [_] => ""
  | _ =>
    let last := parts.getLastD []
    if last = [] then ""
    else if parts.length = 2 && parts.headD [] = [] then ""
    else ⟨Char.ofNat 46 :: last⟩

/-- Strip a root path (list of components) from the front of a target path,
as Python `Path.relative_to`; `none` when the target is not under the root. -/
def relative_to (target root : List String) : Option (List String) :=
  match root, target with
  | [], t => some t
  | _ :: _, [] => none
  | r :: rs, x :: xs => if r = x then relative_to xs rs else none

/-- `SqlMeshLoader._Cache._cache_entry_name`: join the components of the path
relative to the context path with `"__"`, then apply Python `str.replace` of
the target path's suffix by the empty string — replacing every occurrence of
the suffix, not only a trailing one. -/
def cache_entry_name (context_path target_path : List String) : Option String :=
  (relative_to target_path context_path).map fun rel =>
    pyReplace (String.intercalate "__" rel) (pathSuffix (target_path.getLastD "")) ""

/-- `SqlMeshLoader._Cache._model_cache_entry_id`: the mtime list is the model
definition file's mtime (always tracked, hence present) together with the
optional macro max mtime and the optional per-context and global config max
mtimes; the key joins with `"__"` the string of the **maximum** of the present
mtimes, the config fingerprint, and the default catalog (empty when absent). -/
def model_cache_entry_id (model_mtime : Nat)
    (macros_max_mtime local_config_mtime global_config_mtime : Option Nat)
    (config_fingerprint : String) (default_catalog : Option String) : String :=
  let mtimes : List (Option Nat) :=
    [some model_mtime, macros_max_mtime, local_config_mtime, global_config_mtime]
  let present := mtimes.filterMap id
  String.intercalate "__"
    [toString (present.foldl max 0), config_fingerprint, default_catalog.getD ""]

/-! ## File-modification tracking
From `Loader._track_file` / `Loader.reload_needed` in `sqlmesh/core/loader.py`.
The tracked state is the association of each tracked path with the mtime
recorded at track time; the current filesystem is a map from path to its
current mtime, `none` when the file no longer exists. -/

/-- The per-file condition of `Loader.reload_needed`:
`not path.exists() or path.stat().st_mtime > initial_mtime`. -/
def isStale (fs : String → Option Nat) (pm : String × Nat) : Bool :=
  match fs pm.1 with
  | none => true
  | some cur => decide (pm.2 < cur)

/-- `Loader.reload_needed`: true iff some tracked path no longer exists or has
a current mtime strictly greater than the recorded one. -/
def reload_needed (tracked : List (String × Nat)) (fs : String → Option Nat) : Bool :=
  tracked.any (isStale fs)

/-! ## Loading pipeline
From `SqlMeshLoader` in `sqlmesh/core/loader.py`.  Discovered files are pairs
of a path and its byte size (the extension-filtered glob result); the external
sqlglot parser is a parameter mapping a path's content to either a parsed
definition (kept opaque as its fully qualified name) or a parser error
message.  Python exceptions are modelled by `Except`: an error aborts the
whole pipeline, so no partial `LoadedProject` can be produced. -/

/-- The error taxonomy relevant to loading: `ConfigError` raised by the loader
itself, a raw `SqlglotError` propagating uncaught from the parser, and a
`SchemaError` from schema propagation carrying the log lines emitted on the
way out. -/
inductive LoadError where
  | configError : String → LoadError
  | sqlglotError : String → LoadError
  | schemaError : String → List String → LoadError
deriving Repr, DecidableEq

/-- Whether a load error is a `ConfigError`. -/
def LoadError.isConfigError : LoadError → Bool
  | .configError _ => true
  | _ => false

/-- The message of the `ConfigError` raised when a model definition fails to
parse (`SqlMeshLoader._load_sql_models`, the inner `_load` closure). -/
def modelParseErrorMessage (path ex : String) : String :=
  "Failed to parse a model definition at \x27" ++ path ++ "\x27: " ++ ex ++ "."

/-- The message of the `ConfigError` raised when a metric definition fails to
parse (`SqlMeshLoader._load_metrics`). -/
def metricParseErrorMessage (path ex : String) : String :=
  "Failed to parse metric definitions at \x27" ++ path ++ "\x27: " ++ ex ++ "."

/-- `SqlMeshLoader._glob_paths`: keep a discovered file unless some ignore
pattern matches its path (the for/break/else in the source). -/
def glob_paths (ignore_patterns : List (String → Bool)) (files : List (String × Nat)) :
    List (String × Nat) :=
  files.filter fun f => ! ignore_patterns.any fun pat => pat f.1

/-- `SqlMeshLoader._load_sql_models` over the discovered files: skip zero-byte
files entirely (neither tracked nor loaded); otherwise track the path and
parse it, wrapping a parser failure in a `ConfigError` naming the path.
Returns the loaded (path, fqn) pairs and the tracked paths. -/
def load_sql_models (parse : String → Except String String) :
    List (String × Nat) → Except LoadError (List (String × String) × List String)
  | [] => .ok ([], [])
  | (path, size) :: rest =>
    if size = 0 then load_sql_models parse rest
    else
      match parse path with
      | .error ex => .error (.configError (modelParseErrorMessage path ex))
      | .ok fqn =>
        match load_sql_models parse rest with
        | .error e => .error e
        | .ok (models, tracked) => .ok ((path, fqn) :: models, path :: tracked)

/-- `SqlMeshLoader._load_metrics` over the discovered files: same zero-byte
skip as for models; a parser failure raises a `ConfigError` naming the path. -/
def load_metrics (parse : String → Except String String) :
    List (String × Nat) → Except LoadError (List (String × String) × List String)
  | [] => .ok ([], [])
  | (path, size) :: rest =>
    if size = 0 then load_metrics parse rest
    else
      match parse path with
      | .error ex => .error (.configError (metricParseErrorMessage path ex))
      | .ok name =>
        match load_metrics parse rest with
        | .error e => .error e
        | .ok (metrics, tracked) => .ok ((path, name) :: metrics, path :: tracked)

/-- `SqlMeshLoader._load_audits` over the discovered audit files: every file is
tracked and parsed, with no zero-byte guard and, unlike models and metrics,
no try/except around `parse` — a parser failure propagates as the raw
`SqlglotError`. -/
def load_audits (parse : String → Except String String) :
    List String → Except LoadError (List (String × String) × List String)
  | [] => .ok ([], [])
  | path :: rest =>
    match parse path with
    | .error ex => .error (.sqlglotError ex)
    | .ok name =>
      match load_audits parse rest with
      | .error e => .error e
      | .ok (audits, tracked) => .ok ((path, name) :: audits, path :: tracked)

/-! ## Schema propagation
From `update_model_schemas` in `sqlmesh/core/loader.py`. -/

/-- The running column table built during schema propagation, kept abstract as
an association of table names to a representation of their columns. -/
abbrev Schema := List (String × String)

/-- The targeted diagnostic logged for nesting-level mismatches. -/
def nesting_diagnostic : String :=
  "SQLMesh requires all model names and references to have the same level of nesting."

/-- Python `pat in s` substring containment on strings. -/
def containsSubstring (s pat : String) : Bool :=
  containsSub pat.data s.data

/-- `update_model_schemas`: walk the topologically sorted names; names with no
model in the context (external models) are skipped; for each model, the
combined `update_schema` + `add_table` step (external collaborator `step`)
either extends the schema or raises a `SchemaError`.  A raised error is
re-raised after logging the targeted nesting diagnostic exactly when its
message contains `"nesting level:"`. -/
def update_model_schemas (models : String → Bool)
    (step : String → Schema → Except String Schema) :
    List String → Schema → Except LoadError Schema
  | [], schema => .ok schema
  | n :: rest, schema =>
    if models n then
      match step n schema with
      | .error e =>
        .error (.schemaError e
          (if containsSubstring e "nesting level:" then [nesting_diagnostic] else []))
      | .ok schema2 => update_model_schemas models step rest schema2
    else update_model_schemas models step rest schema

/-- The result of a successful load, mirroring `LoadedProject` restricted to
the parts modelled here, together with the tracked paths. -/
structure LoadedProjectM where
  models : List (String × String)
  schema : Schema
  metrics : List (String × String)
  audits : List (String × String)
  tracked : List String
deriving Repr, DecidableEq

/-- `Loader.load` restricted to the modelled phases, in source order: sql
models, then schema propagation over the sorted names, then metrics, then
audits.  Any phase's error aborts the whole load: no partial project. -/
def load (parseModel parseMetric parseAudit : String → Except String String)
    (modelsPresent : String → Bool) (stepSchema : String → Schema → Except String Schema)
    (sortedNames : List String) (ignore_patterns : List (String → Bool))
    (modelFiles metricFiles : List (String × Nat)) (auditFiles : List String) :
    Except LoadError LoadedProjectM :=
  match load_sql_models parseModel (glob_paths ignore_patterns modelFiles) with
  | .error e => .error e
  | .ok (models, mtracked) =>
    match update_model_schemas modelsPresent stepSchema sortedNames [] with
    | .error e => .error e
    | .ok schema =>
      match load_metrics parseMetric (glob_paths ignore_patterns metricFiles) with
      | .error e => .error e
      | .ok (metrics, metTracked) =>
        match load_audits parseAudit auditFiles with
        | .error e => .error e
        | .ok (audits, aTracked) =>
          .ok ⟨models, schema, metrics, audits, mtracked ++ metTracked ++ aTracked⟩

/-! ## Macro registry snapshot and restore
From `SqlMeshLoader._load_scripts` in `sqlmesh/core/loader.py`.  The registry
is a keyed, insertion-ordered collection; registration is keyed assignment.
Python macro files register into the process-wide registry as an import side
effect; each SQL-defined macro is assigned both into the local copy
`standard_macros` and (via the decorator call) into the process-wide registry.
At the end the process-wide registry is read off as the returned registry and
then set to `standard_macros`. -/

/-- An insertion-ordered keyed registry of macro definitions (definitions kept
opaque as strings). -/
abbrev Registry := List (String × String)

/-- Keyed assignment into an insertion-ordered registry: overwrite in place
when the key exists, else append. -/
def setKey (r : Registry) (k v : String) : Registry :=
  if r.any (fun p => p.1 == k) then r.map fun p => if p.1 == k then (k, v) else p
  else r ++ [(k, v)]

/-- `SqlMeshLoader._load_scripts` effect on the process-wide registry: given
the pre-load registry and the (name, definition) lists registered by python
files and by SQL macro files, return the registry handed back to the caller
(first component) and the process-wide registry left after the final
`macro.set_registry(standard_macros)` (second component). -/
def load_scripts (global0 : Registry) (py sql : List (String × String)) :
    Registry × Registry :=
  let global1 := py.foldl (fun g kv => setKey g kv.1 kv.2) global0
  let pair := sql.foldl
    (fun sg kv => (setKey sg.1 kv.1 kv.2, setKey sg.2 kv.1 kv.2)) (global0, global1)
  (pair.2, pair.1)

/-! ## Plan / environment wire protocol and scheduler client
The client source (`sqlmesh/schedulers/airflow/client.py`) and the pydantic
serializers are not part of the repository slice under `src/`; the definitions
in this section are modelled from the spec (sections 3, 4.5 and 6) and from
the documented fixture.  String-level JSON encoding is an out-of-scope
collaborator, so the wire bodies are modelled as structured JSON values. -/

/-- A JSON value.  Object fields are an ordered association list. -/
inductive Json where
  | null : Json
  | bool : Bool → Json
  | num : Int → Json
  | str : String → Json
  | arr : List Json → Json
  | obj : List (String × Json) → Json
deriving Repr

/-- Modelled from the spec: a transformation's materialization kind, a tagged
variant serialized as an object with a `name` tag and, for the
incremental-by-time-range kind, a `time_column` payload naming the column. -/
structure ModelKindM where
  name : String
  time_column : Option String
deriving Repr

/-- Serialization of a kind, matching the documented shape
`\x7bname, time_column: \x7bcolumn\x7d\x7d`. -/
def ModelKindM.toJson (k : ModelKindM) : Json :=
  Json.obj
    ([("name", Json.str k.name)] ++
      (match k.time_column with
       | none => []
       | some c => [("time_column", Json.obj [("column", Json.str c)])]))

/-- Modelled from the spec: a transformation definition as embedded in a
snapshot payload — audits, cron schedule, dialect, raw expressions, pre/post
statements, kind, name, partition columns, query text, storage format and
source form tag. -/
structure SqlModelM where
  audits : List Json
  cron : String
  dialect : String
  expressions : List String
  pre : List Json
  post : List Json
  kind : ModelKindM
  name : String
  partitioned_by : List String
  query : String
  storage_format : String
  source_type : String
deriving Repr

/-- Serialization of a transformation definition, field for field in the
documented order. -/
def SqlModelM.toJson (m : SqlModelM) : Json :=
  Json.obj
    [("audits", Json.arr m.audits),
     ("cron", Json.str m.cron),
     ("dialect", Json.str m.dialect),
     ("expressions", Json.arr (m.expressions.map Json.str)),
     ("pre", Json.arr m.pre),
     ("post", Json.arr m.post),
     ("kind", m.kind.toJson),
     ("name", Json.str m.name),
     ("partitioned_by", Json.arr (m.partitioned_by.map Json.str)),
     ("query", Json.str m.query),
     ("storage_format", Json.str m.storage_format),
     ("source_type", Json.str m.source_type)]

/-- Modelled from the spec: a snapshot — a transformation bound to one
fingerprint/version, with timestamps, ttl, interval lists, the
indirect-version map, version history, physical schema, parents and audits.
Fingerprints, intervals, parents, previous versions and audit payloads are
kept as opaque JSON values. -/
structure SnapshotM where
  created_ts : Int
  ttl : String
  fingerprint : Json
  indirect_versions : List (String × Json)
  intervals : List Json
  dev_intervals : List Json
  model : SqlModelM
  audits : List Json
  name : String
  parents : List Json
  previous_versions : List Json
  physical_schema : String
  updated_ts : Int
  version : String
deriving Repr

/-- Serialization of a snapshot payload, field for field in the documented
order. -/
def SnapshotM.toJson (s : SnapshotM) : Json :=
  Json.obj
    [("created_ts", Json.num s.created_ts),
     ("ttl", Json.str s.ttl),
     ("fingerprint", s.fingerprint),
     ("indirect_versions", Json.obj s.indirect_versions),
     ("intervals", Json.arr s.intervals),
     ("dev_intervals", Json.arr s.dev_intervals),
     ("model", s.model.toJson),
     ("audits", Json.arr s.audits),
     ("name", Json.str s.name),
     ("parents", Json.arr s.parents),
     ("previous_versions", Json.arr s.previous_versions),
     ("physical_schema", Json.str s.physical_schema),
     ("updated_ts", Json.num s.updated_ts),
     ("version", Json.str s.version)]

/-- Modelled from the spec: the table-level metadata (`table_info`) of a
snapshot, used by environments that do not need the full definition. -/
structure SnapshotTableInfoM where
  fingerprint : Json
  name : String
  physical_schema : String
  previous_versions : List Json
  version : String
  parents : List Json
  is_materialized : Bool
  is_embedded_kind : Bool
deriving Repr

/-- Serialization of a snapshot's table info, field for field in the
documented order. -/
def SnapshotTableInfoM.toJson (t : SnapshotTableInfoM) : Json :=
  Json.obj
    [("fingerprint", t.fingerprint),
     ("name", t.name |> Json.str),
     ("physical_schema", Json.str t.physical_schema),
     ("previous_versions", Json.arr t.previous_versions),
     ("version", Json.str t.version),
     ("parents", Json.arr t.parents),
     ("is_materialized", Json.bool t.is_materialized),
     ("is_embedded_kind", Json.bool t.is_embedded_kind)]

/-- Modelled from the spec: the table info derived from a snapshot; a
transformation is materialized unless its kind is embedded. -/
def SnapshotM.table_info (s : SnapshotM) : SnapshotTableInfoM :=
  { fingerprint := s.fingerprint
    name := s.name
    physical_schema := s.physical_schema
    previous_versions := s.previous_versions
    version := s.version
    parents := s.parents
    is_materialized := s.model.kind.name != "embedded"
    is_embedded_kind := s.model.kind.name == "embedded" }

/-- Modelled from the spec: an environment — a named binding of snapshot table
infos with a time window and plan lineage. -/
structure EnvironmentM where
  name : String
  snapshots : List SnapshotTableInfoM
  start_at : String
  end_at : String
  plan_id : String
  previous_plan_id : Option String
deriving Repr

/-- Serialization of an environment, field for field in the documented order;
an absent previous plan id serializes as JSON null. -/
def EnvironmentM.toJson (e : EnvironmentM) : Json :=
  Json.obj
    [("name", Json.str e.name),
     ("snapshots", Json.arr (e.snapshots.map SnapshotTableInfoM.toJson)),
     ("start_at", Json.str e.start_at),
     ("end_at", Json.str e.end_at),
     ("plan_id", Json.str e.plan_id),
     ("previous_plan_id",
       match e.previous_plan_id with
       | none => Json.null
       | some p => Json.str p)]

/-- A single HTTP POST issued by the client: target URL and JSON body. -/
structure HttpPost where
  url : String
  body : Json

/-- The submission parameters of a plan beyond its snapshots, environment and
request id: gap policy, skip-backfill flag, notification targets,
restatements, concurrency limits, users and the dev flag. -/
structure PlanParams where
  no_gaps : Bool
  skip_backfill : Bool
  notification_targets : List Json
  restatements : List Json
  backfill_concurrent_tasks : Int
  ddl_concurrent_tasks : Int
  users : List Json
  is_dev : Bool

/-- Modelled from the spec: `AirflowClient.apply_plan` issues exactly one POST
to `base_url + "/sqlmesh/api/v1/plans"` whose body carries the documented
eleven fields; the `timestamp` argument parameterizes the submission but is
not a body field. -/
def apply_plan (base_url : String) (new_snapshots : List SnapshotM)
    (environment : EnvironmentM) (request_id : String) (timestamp : Int)
    (params : PlanParams) : List HttpPost :=
  let _ := timestamp
  [⟨base_url ++ "/sqlmesh/api/v1/plans",
    Json.obj
      [("new_snapshots", Json.arr (new_snapshots.map SnapshotM.toJson)),
       ("environment", environment.toJson),
       ("no_gaps", Json.bool params.no_gaps),
       ("skip_backfill", Json.bool params.skip_backfill),
       ("notification_targets", Json.arr params.notification_targets),
       ("request_id", Json.str request_id),
       ("restatements", Json.arr params.restatements),
       ("backfill_concurrent_tasks", Json.num params.backfill_concurrent_tasks),
       ("ddl_concurrent_tasks", Json.num params.ddl_concurrent_tasks),
       ("users", Json.arr params.users),
       ("is_dev", Json.bool params.is_dev)]⟩]

/-- Decode a JSON array of strings. -/
def strList : List Json → Option (List String)
  | [] => some []
  | Json.str s :: rest => (strList rest).map fun l => s :: l
  | _ => none

/-- Deserialization of a kind, inverse to `ModelKindM.toJson`. -/
def ModelKindM.fromJson : Json → Option ModelKindM
  | Json.obj fields => do
    let Json.str name ← fields.lookup "name" | none
    match fields.lookup "time_column" with
    | none => some ⟨name, none⟩
    | some (Json.obj [("column", Json.str c)]) => some ⟨name, some c⟩
    | some _ => none
  | _ => none

/-- Deserialization of a transformation definition, inverse to
`SqlModelM.toJson`. -/
def SqlModelM.fromJson : Json → Option SqlModelM
  | Json.obj fields => do
    let Json.arr audits ← fields.lookup "audits" | none
    let Json.str cron ← fields.lookup "cron" | none
    let Json.str dialect ← fields.lookup "dialect" | none
    let Json.arr exprsJ ← fields.lookup "expressions" | none
    let exprs ← strList exprsJ
    let Json.arr pre ← fields.lookup "pre" | none
    let Json.arr post ← fields.lookup "post" | none
    let kindJ ← fields.lookup "kind"
    let kind ← ModelKindM.fromJson kindJ
    let Json.str name ← fields.lookup "name" | none
    let Json.arr partJ ← fields.lookup "partitioned_by" | none
    let part ← strList partJ
    let Json.str query ← fields.lookup "query" | none
    let Json.str sf ← fields.lookup "storage_format" | none
    let Json.str st ← fields.lookup "source_type" | none
    some ⟨audits, cron, dialect, exprs, pre, post, kind, name, part, query, sf, st⟩
  | _ => none

/-- Deserialization of a snapshot payload, inverse to `SnapshotM.toJson`. -/
def SnapshotM.fromJson : Json → Option SnapshotM
  | Json.obj fields => do
    let Json.num created ← fields.lookup "created_ts" | none
    let Json.str ttl ← fields.lookup "ttl" | none
    let fp ← fields.lookup "fingerprint"
    let Json.obj iv ← fields.lookup "indirect_versions" | none
    let Json.arr intervals ← fields.lookup "intervals" | none
    let Json.arr devIntervals ← fields.lookup "dev_intervals" | none
    let modelJ ← fields.lookup "model"
    let model ← SqlModelM.fromJson modelJ
    let Json.arr audits ← fields.lookup "audits" | none
    let Json.str name ← fields.lookup "name" | none
    let Json.arr parents ← fields.lookup "parents" | none
    let Json.arr pv ← fields.lookup "previous_versions" | none
    let Json.str ps ← fields.lookup "physical_schema" | none
    let Json.num updated ← fields.lookup "updated_ts" | none
    let Json.str version ← fields.lookup "version" | none
    some ⟨created, ttl, fp, iv, intervals, devIntervals, model, audits, name,
          parents, pv, ps, updated, version⟩
  | _ => none

/-- Deserialization of a snapshot's table info, inverse to
`SnapshotTableInfoM.toJson`. -/
def SnapshotTableInfoM.fromJson : Json → Option SnapshotTableInfoM
  | Json.obj fields => do
    let fp ← fields.lookup "fingerprint"
    let Json.str name ← fields.lookup "name" | none
    let Json.str ps ← fields.lookup "physical_schema" | none
    let Json.arr pv ← fields.lookup "previous_versions" | none
    let Json.str v ← fields.lookup "version" | none
    let Json.arr parents ← fields.lookup "parents" | none
    let Json.bool im ← fields.lookup "is_materialized" | none
    let Json.bool ie ← fields.lookup "is_embedded_kind" | none
    some ⟨fp, name, ps, pv, v, parents, im, ie⟩
  | _ => none

/-- Decode a JSON array of snapshot table infos. -/
def tableInfoList : List Json → Option (List SnapshotTableInfoM)
  | [] => some []
  | j :: rest => do
    let t ← SnapshotTableInfoM.fromJson j
    let ts ← tableInfoList rest
    some (t :: ts)

/-- Deserialization of an environment, inverse to `EnvironmentM.toJson`. -/
def EnvironmentM.fromJson : Json → Option EnvironmentM
  | Json.obj fields => do
    let Json.str name ← fields.lookup "name" | none
    let Json.arr snapsJ ← fields.lookup "snapshots" | none
    let snaps ← tableInfoList snapsJ
    let Json.str start ← fields.lookup "start_at" | none
    let Json.str stop ← fields.lookup "end_at" | none
    let Json.str planId ← fields.lookup "plan_id" | none
    let prev ←
      match fields.lookup "previous_plan_id" with
      | some Json.null => some none
      | some (Json.str p) => some (some p)
      | _ => none
    some ⟨name, snaps, start, stop, planId, prev⟩
  | _ => none

/-- Modelled from the spec: the variable-fetch URL used by `get_environment`. -/
def environment_url (base_url name : String) : String :=
  base_url ++ "/api/v1/variables/sqlmesh__environment__" ++ name

/-- Modelled from the spec: the variable-fetch URL used by `get_snapshot`. -/
def snapshot_url (base_url name identifier : String) : String :=
  base_url ++ "/api/v1/variables/sqlmesh__snapshot_payload__" ++ name ++ "__" ++ identifier

/-- Modelled from the spec: `get_environment` reads the `value` field of the
variable response and deserializes the environment from it. -/
def get_environment_response (resp : Json) : Option EnvironmentM :=
  match resp with
  | Json.obj fields =>
    match fields.lookup "value" with
    | some v => EnvironmentM.fromJson v
    | none => none
  | _ => none

/-- Modelled from the spec: `get_snapshot` reads the `value` field of the
variable response and deserializes the snapshot from it. -/
def get_snapshot_response (resp : Json) : Option SnapshotM :=
  match resp with
  | Json.obj fields =>
    match fields.lookup "value" with
    | some v => SnapshotM.fromJson v
    | none => none
  | _ => none

/-- The documented fixture transformation: `test_model`, incremental by time
range on column `ds`, a single partition column `a`, parquet storage, one
macro definition expression, and the documented defaults (daily cron, empty
dialect, no audits and no pre/post statements). -/
def fixture_model : SqlModelM :=
  { audits := []
    cron := "@daily"
    dialect := ""
    expressions := ["@DEF(key, \x27value\x27)"]
    pre := []
    post := []
    kind := ⟨"incremental_by_time_range", some "ds"⟩
    name := "test_model"
    partitioned_by := ["a"]
    query := "SELECT a, ds FROM tbl"
    storage_format := "parquet"
    source_type := "sql" }

/-- The documented fixture snapshot wrapping `fixture_model`, with symbolic
fingerprint payload and version token. -/
def fixture_snapshot (fpj : Json) (v : String) : SnapshotM :=
  { created_ts := 1665014400000
    ttl := "in 1 week"
    fingerprint := fpj
    indirect_versions := []
    intervals := []
    dev_intervals := []
    model := fixture_model
    audits := []
    name := "test_model"
    parents := []
    previous_versions := []
    physical_schema := "physical_schema"
    updated_ts := 1665014400000
    version := v }

/-- The documented fixture environment `test_env` holding the fixture
snapshot's table info. -/
def fixture_environment (fpj : Json) (v : String) : EnvironmentM :=
  { name := "test_env"
    snapshots := [(fixture_snapshot fpj v).table_info]
    start_at := "2022-01-01"
    end_at := "2022-01-01"
    plan_id := "test_plan_id"
    previous_plan_id := some "previous_plan_id" }

/-- The documented fixture submission parameters: one backfill and one DDL
concurrent task, not a dev plan, everything else defaulted. -/
def fixture_params : PlanParams :=
  { no_gaps := false
    skip_backfill := false
    notification_targets := []
    restatements := []
    backfill_concurrent_tasks := 1
    ddl_concurrent_tasks := 1
    users := []
    is_dev := false }

/-! ## Helper lemmas -/

theorem tableInfo_roundtrip (t : SnapshotTableInfoM) :
    SnapshotTableInfoM.fromJson t.toJson = some t := rfl

theorem kind_roundtrip (k : ModelKindM) : ModelKindM.fromJson k.toJson = some k := by
  obtain ⟨n, tc⟩ := k
  cases tc <;> rfl

theorem strList_map (l : List String) : strList (l.map Json.str) = some l := by
  induction l with
  | nil => rfl
  | cons a t ih => simp [strList, ih]

theorem model_roundtrip (m : SqlModelM) : SqlModelM.fromJson m.toJson = some m := by
  obtain ⟨au, cr, di, ex, pre, post, k, n, pb, q, sf, st⟩ := m
  simp [SqlModelM.fromJson, SqlModelM.toJson, List.lookup, strList_map, kind_roundtrip]

theorem snapshot_roundtrip (s : SnapshotM) : SnapshotM.fromJson s.toJson = some s := by
  obtain ⟨c, ttl, fp, iv, ints, dints, m, au, n, par, pv, ps, u, v⟩ := s
  simp [SnapshotM.fromJson, SnapshotM.toJson, List.lookup, model_roundtrip]

theorem tableInfoList_map (l : List SnapshotTableInfoM) :
    tableInfoList (l.map SnapshotTableInfoM.toJson) = some l := by
  induction l with
  | nil => rfl
  | cons a t ih => simp [tableInfoList, tableInfo_roundtrip, ih]

theorem environment_roundtrip (e : EnvironmentM) : EnvironmentM.fromJson e.toJson = some e := by
  obtain ⟨n, snaps, sa, ea, pid, prev⟩ := e
  cases prev <;>
    simp [EnvironmentM.fromJson, EnvironmentM.toJson, List.lookup, tableInfoList_map]

theorem relative_to_append (c rel : List String) : relative_to (c ++ rel) c = some rel := by
  induction c with
  | nil => simp [relative_to]
  | cons a t ih => simp [relative_to, ih]

theorem foldl_setKey_pair (l : List (String × String)) (a b : Registry) :
    l.foldl (fun sg kv => (setKey sg.1 kv.1 kv.2, setKey sg.2 kv.1 kv.2)) (a, b) =
      (l.foldl (fun r kv => setKey r kv.1 kv.2) a,
       l.foldl (fun r kv => setKey r kv.1 kv.2) b) := by
  induction l generalizing a b with
  | nil => rfl
  | cons x t ih => simp [List.foldl, ih]

theorem isStale_iff (fs : String → Option Nat) (pm : String × Nat) :
    isStale fs pm = true ↔ fs pm.1 = none ∨ ∃ cur, fs pm.1 = some cur ∧ pm.2 < cur := by
  cases h : fs pm.1 <;> simp [isStale, h]

theorem any_congr_mem {α : Type} {l : List α} {f g : α → Bool}
    (h : ∀ x ∈ l, f x = g x) : l.any f = l.any g := by
  induction l with
  | nil => rfl
  | cons a t ih =>
    simp only [List.any_cons, h a (by simp), ih fun x hx => h x (by simp [hx])]

theorem load_sql_models_error (parse : String → Except String String)
    (files : List (String × Nat)) (e : LoadError)
    (h : load_sql_models parse files = .error e) :
    ∃ path ex, e = .configError (modelParseErrorMessage path ex) ∧
      parse path = .error ex ∧ path ∈ files.map Prod.fst := by
  induction files with
  | nil => simp [load_sql_models] at h
  | cons f rest ih =>
    obtain ⟨path, size⟩ := f
    rw [load_sql_models] at h
    split at h
    · obtain ⟨p, ex, h1, h2, h3⟩ := ih h
      exact ⟨p, ex, h1, h2, by simp [h3]⟩
    · cases hp : parse path with
      | error ex =>
        rw [hp] at h
        simp only [Except.error.injEq] at h
        exact ⟨path, ex, h.symm, hp, by simp⟩
      | ok fqn =>
        rw [hp] at h
        cases hr : load_sql_models parse rest with
        | error e2 =>
          rw [hr] at h
          simp only [Except.error.injEq] at h
          obtain ⟨p, ex, h1, h2, h3⟩ := ih (by rw [hr, h])
          exact ⟨p, ex, h1, h2, by simp [h3]⟩
        | ok pr =>
          obtain ⟨ms, ts⟩ := pr
          rw [hr] at h
          exact Except.noConfusion h

theorem load_metrics_error (parse : String → Except String String)
    (files : List (String × Nat)) (e : LoadError)
    (h : load_metrics parse files = .error e) :
    ∃ path ex, e = .configError (metricParseErrorMessage path ex) ∧
      parse path = .error ex ∧ path ∈ files.map Prod.fst := by
  induction files with
  | nil => simp [load_metrics] at h
  | cons f rest ih =>
    obtain ⟨path, size⟩ := f
    rw [load_metrics] at h
    split at h
    · obtain ⟨p, ex, h1, h2, h3⟩ := ih h
      exact ⟨p, ex, h1, h2, by simp [h3]⟩
    · cases hp : parse path with
      | error ex =>
        rw [hp] at h
        simp only [Except.error.injEq] at h
        exact ⟨path, ex, h.symm, hp, by simp⟩
      | ok name =>
        rw [hp] at h
        cases hr : load_metrics parse rest with
        | error e2 =>
          rw [hr] at h
          simp only [Except.error.injEq] at h
          obtain ⟨p, ex, h1, h2, h3⟩ := ih (by rw [hr, h])
          exact ⟨p, ex, h1, h2, by simp [h3]⟩
        | ok pr =>
          obtain ⟨ms, ts⟩ := pr
          rw [hr] at h
          exact Except.noConfusion h

theorem load_audits_error (parse : String → Except String String)
    (files : List String) (e : LoadError)
    (h : load_audits parse files = .error e) :
    ∃ path ex, e = .sqlglotError ex ∧ parse path = .error ex ∧ path ∈ files := by
  induction files with
  | nil => simp [load_audits] at h
  | cons path rest ih =>
    rw [load_audits] at h
    cases hp : parse path with
    | error ex =>
      rw [hp] at h
      simp only [Except.error.injEq] at h
      exact ⟨path, ex, h.symm, hp, by simp⟩
    | ok name =>
      rw [hp] at h
      cases hr : load_audits parse rest with
      | error e2 =>
        rw [hr] at h
        simp only [Except.error.injEq] at h
        obtain ⟨p, ex, h1, h2, h3⟩ := ih (by rw [hr, h])
        exact ⟨p, ex, h1, h2, by simp [h3]⟩
      | ok pr =>
        obtain ⟨ms, ts⟩ := pr
        rw [hr] at h
        exact Except.noConfusion h

theorem load_sql_models_ok (fqn : String → String) (files : List (String × Nat)) :
    load_sql_models (fun p => .ok (fqn p)) files =
      .ok (((files.filter fun f => f.2 != 0).map fun f => (f.1, fqn f.1)),
           (files.filter fun f => f.2 != 0).map Prod.fst) := by
  induction files with
  | nil => rfl
  | cons f rest ih =>
    obtain ⟨p, s⟩ := f
    by_cases hs : s = 0 <;> simp [load_sql_models, hs, ih, List.filter_cons, bne_iff_ne]

theorem load_metrics_ok (name : String → String) (files : List (String × Nat)) :
    load_metrics (fun p => .ok (name p)) files =
      .ok (((files.filter fun f => f.2 != 0).map fun f => (f.1, name f.1)),
           (files.filter fun f => f.2 != 0).map Prod.fst) := by
  induction files with
  | nil => rfl
  | cons f rest ih =>
    obtain ⟨p, s⟩ := f
    by_cases hs : s = 0 <;> simp [load_metrics, hs, ih, List.filter_cons, bne_iff_ne]

/-! ## Claims -/

/-- C1 (counterexample): the invalidation key is not the concatenation of all
mtime components — changing only the definition file's mtime (1 to 2) while a
macro file has a larger mtime (5) leaves the key unchanged. -/
theorem claim_C1_counterexample :
    model_cache_entry_id 1 (some 5) none none "fp" (some "cat") =
      model_cache_entry_id 2 (some 5) none none "fp" (some "cat") ∧
    (1 : Nat) ≠ 2 :=
  ⟨rfl, by decide⟩

/-- C1 (amended): the invalidation key concatenates the maximum of the present
mtime components (definition file, macro max, local and global config max)
with the config fingerprint and the default catalog name; an mtime change
therefore changes the key only when it changes that maximum, while a
fingerprint or catalog change always reaches the key. -/
theorem claim_C1_amended (m : Nat) (mac lc gc : Option Nat) (fp : String)
    (cat : Option String) :
    model_cache_entry_id m mac lc gc fp cat =
      String.intercalate "__"
        [toString (((m.max (mac.getD 0)).max (lc.getD 0)).max (gc.getD 0)),
         fp, cat.getD ""] := by
  cases mac <;> cases lc <;> cases gc <;>
    simp [model_cache_entry_id, Nat.max_zero, Nat.zero_max, Nat.max_assoc, Nat.max_comm,
      Nat.max_left_comm]

/-- C2: for the documented fixture, `apply_plan` issues exactly one POST to
the plans endpoint whose JSON body carries exactly the documented eleven
fields and matches the documented shape field for field (the fingerprint
payload and version token are symbolic). -/
theorem claim_C2 (fpj : Json) (v : String) :
    apply_plan "http://localhost:8080" [fixture_snapshot fpj v] (fixture_environment fpj v)
      "test_request_id" 1660617619000 fixture_params =
    [⟨"http://localhost:8080/sqlmesh/api/v1/plans",
      Json.obj
        [("new_snapshots", Json.arr [Json.obj
            [("created_ts", Json.num 1665014400000),
             ("ttl", Json.str "in 1 week"),
             ("fingerprint", fpj),
             ("indirect_versions", Json.obj []),
             ("intervals", Json.arr []),
             ("dev_intervals", Json.arr []),
             ("model", Json.obj
               [("audits", Json.arr []),
                ("cron", Json.str "@daily"),
                ("dialect", Json.str ""),
                ("expressions", Json.arr [Json.str "@DEF(key, \x27value\x27)"]),
                ("pre", Json.arr []),
                ("post", Json.arr []),
                ("kind", Json.obj
                  [("name", Json.str "incremental_by_time_range"),
                   ("time_column", Json.obj [("column", Json.str "ds")])]),
                ("name", Json.str "test_model"),
                ("partitioned_by", Json.arr [Json.str "a"]),
                ("query", Json.str "SELECT a, ds FROM tbl"),
                ("storage_format", Json.str "parquet"),
                ("source_type", Json.str "sql")]),
             ("audits", Json.arr []),
             ("name", Json.str "test_model"),
             ("parents", Json.arr []),
             ("previous_versions", Json.arr []),
             ("physical_schema", Json.str "physical_schema"),
             ("updated_ts", Json.num 1665014400000),
             ("version", Json.str v)]]),
         ("environment", Json.obj
           [("name", Json.str "test_env"),
            ("snapshots", Json.arr [Json.obj
              [("fingerprint", fpj),
               ("name", Json.str "test_model"),
               ("physical_schema", Json.str "physical_schema"),
               ("previous_versions", Json.arr []),
               ("version", Json.str v),
               ("parents", Json.arr []),
               ("is_materialized", Json.bool true),
               ("is_embedded_kind", Json.bool false)]]),
            ("start_at", Json.str "2022-01-01"),
            ("end_at", Json.str "2022-01-01"),
            ("plan_id", Json.str "test_plan_id"),
            ("previous_plan_id", Json.str "previous_plan_id")]),
         ("no_gaps", Json.bool false),
         ("skip_backfill", Json.bool false),
         ("notification_targets", Json.arr []),
         ("request_id", Json.str "test_request_id"),
         ("restatements", Json.arr []),
         ("backfill_concurrent_tasks", Json.num 1),
         ("ddl_concurrent_tasks", Json.num 1),
         ("users", Json.arr []),
         ("is_dev", Json.bool false)]⟩] := rfl

/-- C3: fetching an environment or snapshot back from the scheduler and
deserializing the `value` field of the response reconstructs an object equal,
field for field, to the one whose serialization was stored. -/
theorem claim_C3 (e : EnvironmentM) (s : SnapshotM) :
    get_environment_response (Json.obj [("value", e.toJson)]) = some e ∧
    get_snapshot_response (Json.obj [("value", s.toJson)]) = some s :=
  ⟨by simp [get_environment_response, List.lookup, environment_roundtrip],
   by simp [get_snapshot_response, List.lookup, snapshot_roundtrip]⟩

/-- C4: `reload_needed` is true iff some tracked path no longer exists or has
an on-disk mtime strictly greater than the recorded one; in particular it is
false whenever the filesystem still reports the recorded mtime for every
tracked path, and true as soon as one tracked file is deleted or advanced. -/
theorem claim_C4 (tracked : List (String × Nat)) (fs : String → Option Nat) :
    (reload_needed tracked fs = true ↔
      ∃ pm ∈ tracked, fs pm.1 = none ∨ ∃ cur, fs pm.1 = some cur ∧ pm.2 < cur) ∧
    ((∀ pm ∈ tracked, fs pm.1 = some pm.2) → reload_needed tracked fs = false) := by
  have hiff : reload_needed tracked fs = true ↔
      ∃ pm ∈ tracked, fs pm.1 = none ∨ ∃ cur, fs pm.1 = some cur ∧ pm.2 < cur := by
    simp [reload_needed, List.any_eq_true, isStale_iff]
  refine ⟨hiff, fun h => ?_⟩
  rw [← Bool.not_eq_true]
  intro hr
  obtain ⟨pm, hmem, hcase⟩ := hiff.mp hr
  rcases hcase with hnone | ⟨cur, hcur, hlt⟩
  · rw [h pm hmem] at hnone
    exact Option.noConfusion hnone
  · rw [h pm hmem] at hcur
    simp at hcur
    omega

/-- C4 (witness): with one tracked file whose on-disk mtime still equals the
recorded one, no reload is needed. -/
theorem claim_C4_witness :
    reload_needed [("models/a.sql", 3)] (fun _ => some 3) = false :=
  (claim_C4 [("models/a.sql", 3)] (fun _ => some 3)).2 (by
    intro pm hm
    simp at hm
    subst hm
    rfl)

/-- C5 (counterexample): a parser failure in an audit file aborts the whole
load with the raw parser error, not with a configuration error naming the
offending path. -/
theorem claim_C5_counterexample :
    load (fun _ => .ok "m") (fun _ => .ok "met") (fun _ => .error "mismatched input")
      (fun _ => false) (fun _ s => .ok s) [] [] [("models/m.sql", 3)] []
      ["audits/a.sql"] = .error (.sqlglotError "mismatched input") ∧
    (LoadError.sqlglotError "mismatched input").isConfigError = false :=
  ⟨rfl, rfl⟩

/-- C5 (amended): a parser failure aborts the whole load; for transformation
and metric definition files the resulting error is a configuration error whose
message names the offending path together with the underlying parser message,
while for audit files the raw parser error propagates unwrapped. -/
theorem claim_C5_amended (pm pmet pa : String → Except String String)
    (mfiles metfiles : List (String × Nat)) (afiles : List String) (e : LoadError)
    (h : load_sql_models pm mfiles = .error e ∨ load_metrics pmet metfiles = .error e ∨
         load_audits pa afiles = .error e) :
    ∃ path ex,
      (e = .configError (modelParseErrorMessage path ex) ∧ pm path = .error ex ∧
        path ∈ mfiles.map Prod.fst) ∨
      (e = .configError (metricParseErrorMessage path ex) ∧ pmet path = .error ex ∧
        path ∈ metfiles.map Prod.fst) ∨
      (e = .sqlglotError ex ∧ pa path = .error ex ∧ path ∈ afiles) := by
  rcases h with h | h | h
  · obtain ⟨p, ex, h1, h2, h3⟩ := load_sql_models_error pm mfiles e h
    exact ⟨p, ex, Or.inl ⟨h1, h2, h3⟩⟩
  · obtain ⟨p, ex, h1, h2, h3⟩ := load_metrics_error pmet metfiles e h
    exact ⟨p, ex, Or.inr (Or.inl ⟨h1, h2, h3⟩)⟩
  · obtain ⟨p, ex, h1, h2, h3⟩ := load_audits_error pa afiles e h
    exact ⟨p, ex, Or.inr (Or.inr ⟨h1, h2, h3⟩)⟩

/-- C5 (witness for the amended claim): a failing model definition parse ends
the load with the configuration error naming the file and the parser text. -/
theorem claim_C5_witness :
    ∃ path ex,
      (LoadError.configError (modelParseErrorMessage "models/m.sql" "boom") =
          .configError (modelParseErrorMessage path ex) ∧
        (fun _ => (.error "boom" : Except String String)) path = .error ex ∧
        path ∈ ([("models/m.sql", 4)] : List (String × Nat)).map Prod.fst) ∨
      (LoadError.configError (modelParseErrorMessage "models/m.sql" "boom") =
          .configError (metricParseErrorMessage path ex) ∧
        (fun _ => (.ok "met" : Except String String)) path = .error ex ∧
        path ∈ ([] : List (String × Nat)).map Prod.fst) ∨
      (LoadError.configError (modelParseErrorMessage "models/m.sql" "boom") =
          .sqlglotError ex ∧
        (fun _ => (.ok "aud" : Except String String)) path = .error ex ∧
        path ∈ ([] : List String)) :=
  claim_C5_amended (fun _ => .error "boom") (fun _ => .ok "met") (fun _ => .ok "aud")
    [("models/m.sql", 4)] [] []
    (.configError (modelParseErrorMessage "models/m.sql" "boom")) (Or.inl rfl)

/-- C6 (counterexample): after a load that defines one python macro and one
SQL macro starting from an empty registry, the process-wide registry is left
holding the SQL macro, not the (empty) pre-load snapshot. -/
theorem claim_C6_counterexample :
    (load_scripts [] [("py_fn", "def1")] [("sql_fn", "def2")]).2 = [("sql_fn", "def2")] ∧
    [("sql_fn", "def2")] ≠ ([] : Registry) :=
  ⟨rfl, by decide⟩

/-- C6 (amended): after `_load_scripts`, the process-wide registry holds the
pre-load snapshot updated with the SQL-defined macros of this load (exactly
the snapshot when there are none), python-registered macros having been
removed; the registry returned to the caller carries all macros registered
during the load on top of the snapshot. -/
theorem claim_C6_amended (global0 : Registry) (py sql : List (String × String)) :
    (load_scripts global0 py sql).2 = sql.foldl (fun r kv => setKey r kv.1 kv.2) global0 ∧
    (load_scripts global0 py sql).1 =
      sql.foldl (fun r kv => setKey r kv.1 kv.2)
        (py.foldl (fun r kv => setKey r kv.1 kv.2) global0) ∧
    (load_scripts global0 py []).2 = global0 := by
  refine ⟨?_, ?_, rfl⟩ <;> simp [load_scripts, foldl_setKey_pair]

/-- C7 (counterexample): the cache entry name removes every occurrence of the
suffix in the joined relative path, not only the trailing extension: for the
relative path `models/marts.sql/model.sql` the entry name is
`models__marts__model`, while trailing-only stripping would give
`models__marts.sql__model`. -/
theorem claim_C7_counterexample :
    cache_entry_name ["proj"] ["proj", "models", "marts.sql", "model.sql"] =
      some "models__marts__model" ∧
    "models__marts__model" ≠ "models__marts.sql__model" :=
  ⟨rfl, by decide⟩

/-- C7 (amended): the entry name is a deterministic function of the path
relative to the project root — two roots sharing the same relative path always
derive the same entry name — with every occurrence of the final component's
suffix removed from the joined parts, not only the trailing one. -/
theorem claim_C7_amended (c1 c2 rel : List String) (h : rel ≠ []) :
    cache_entry_name c1 (c1 ++ rel) = cache_entry_name c2 (c2 ++ rel) := by
  have hlast : ∀ c : List String, (c ++ rel).getLastD "" = rel.getLastD "" := by
    intro c
    rw [List.getLastD_eq_getLast?, List.getLastD_eq_getLast?,
      List.getLast?_append_of_ne_nil c h]
  simp only [cache_entry_name, relative_to_append, Option.map_some, Option.map_some']
  rw [hlast c1, hlast c2]

/-- C7 (witness for the amended claim): two machines with different project
roots derive the same entry name for `models/a.sql`. -/
theorem claim_C7_witness :
    cache_entry_name ["home", "u1", "proj"] (["home", "u1", "proj"] ++ ["models", "a.sql"]) =
      cache_entry_name ["opt", "proj2"] (["opt", "proj2"] ++ ["models", "a.sql"]) :=
  claim_C7_amended ["home", "u1", "proj"] ["opt", "proj2"] ["models", "a.sql"] (by decide)

/-- C8: a zero-byte definition file surviving the ignore filter is skipped
without error — the sql-model and metric loading phases succeed (with an
otherwise well-behaved parser) and produce no transformation and no metric for
that file. -/
theorem claim_C8 (fqnM fqnMet : String → String) (ignore_patterns : List (String → Bool))
    (mfiles metfiles : List (String × Nat)) (p : String)
    (hm : ∀ s, (p, s) ∈ glob_paths ignore_patterns mfiles → s = 0)
    (hmet : ∀ s, (p, s) ∈ glob_paths ignore_patterns metfiles → s = 0) :
    ∃ models mtracked metrics mettracked,
      load_sql_models (fun q => .ok (fqnM q)) (glob_paths ignore_patterns mfiles) =
        .ok (models, mtracked) ∧
      load_metrics (fun q => .ok (fqnMet q)) (glob_paths ignore_patterns metfiles) =
        .ok (metrics, mettracked) ∧
      p ∉ models.map Prod.fst ∧ p ∉ metrics.map Prod.fst := by
  refine ⟨_, _, _, _, load_sql_models_ok fqnM _, load_metrics_ok fqnMet _, ?_, ?_⟩
  · intro hp
    simp only [List.map_map, List.mem_map, List.mem_filter, Function.comp] at hp
    obtain ⟨⟨q, s⟩, ⟨hin, hs⟩, rfl⟩ := hp
    rw [hm s hin] at hs
    simp at hs
  · intro hp
    simp only [List.map_map, List.mem_map, List.mem_filter, Function.comp] at hp
    obtain ⟨⟨q, s⟩, ⟨hin, hs⟩, rfl⟩ := hp
    rw [hmet s hin] at hs
    simp at hs

/-- C8 (witness): a project with one non-empty and one empty model file and an
empty metric file loads successfully and yields nothing for the empty files. -/
theorem claim_C8_witness :
    ∃ models mtracked metrics mettracked,
      load_sql_models (fun q => .ok ("db." ++ q))
        (glob_paths [fun q => q == "ig.sql"] [("m.sql", 5), ("empty.sql", 0)]) =
        .ok (models, mtracked) ∧
      load_metrics (fun q => .ok ("met." ++ q))
        (glob_paths [fun q => q == "ig.sql"] [("empty.sql", 0)]) =
        .ok (metrics, mettracked) ∧
      "empty.sql" ∉ models.map Prod.fst ∧ "empty.sql" ∉ metrics.map Prod.fst :=
  claim_C8 (fun q => "db." ++ q) (fun q => "met." ++ q) [fun q => q == "ig.sql"]
    [("m.sql", 5), ("empty.sql", 0)] [("empty.sql", 0)] "empty.sql"
    (by
      intro s h
      simp [glob_paths, List.filter] at h
      omega)
    (by
      intro s h
      simp [glob_paths, List.filter] at h
      omega)

/-- C9: whenever schema propagation fails, the failure carries a step-raised
schema error message, and the targeted nesting diagnostic is logged on the way
out exactly when that message indicates a nesting-level mismatch; schema
errors without that indication propagate with no targeted diagnostic. -/
theorem claim_C9 (models : String → Bool) (step : String → Schema → Except String Schema)
    (names : List String) (schema : Schema) (msg : String) (logged : List String)
    (h : update_model_schemas models step names schema = .error (.schemaError msg logged)) :
    (∃ n s, models n = true ∧ step n s = .error msg) ∧
    (containsSubstring msg "nesting level:" = true → logged = [nesting_diagnostic]) ∧
    (containsSubstring msg "nesting level:" = false → logged = []) := by
  induction names generalizing schema with
  | nil => simp [update_model_schemas] at h
  | cons n rest ih =>
    rw [update_model_schemas] at h
    split at h
    case isTrue hmodels =>
      cases hstep : step n schema with
      | error e2 =>
        rw [hstep] at h
        simp only [Except.error.injEq, LoadError.schemaError.injEq] at h
        obtain ⟨hmsg, hlog⟩ := h
        subst hmsg
        refine ⟨⟨n, schema, hmodels, hstep⟩, ?_, ?_⟩
        · intro hc
          rw [hc] at hlog
          simpa using hlog.symm
        · intro hc
          rw [hc] at hlog
          simpa using hlog.symm
      | ok schema2 =>
        rw [hstep] at h
        exact ih schema2 h
    case isFalse hmodels =>
      exact ih schema h

/-- C9 (witness): a schema error whose message contains `nesting level:`
surfaces with the targeted diagnostic logged. -/
theorem claim_C9_witness :
    (∃ n s, (fun (_ : String) => true) n = true ∧
      (fun (_ : String) (_ : Schema) =>
        (.error "Table z at nesting level: 2" : Except String Schema)) n s =
        .error "Table z at nesting level: 2") ∧
    (containsSubstring "Table z at nesting level: 2" "nesting level:" = true →
      [nesting_diagnostic] = [nesting_diagnostic]) ∧
    (containsSubstring "Table z at nesting level: 2" "nesting level:" = false →
      [nesting_diagnostic] = []) :=
  claim_C9 (fun _ => true)
    (fun _ _ => .error "Table z at nesting level: 2") ["a"] []
    "Table z at nesting level: 2" [nesting_diagnostic] rfl

/-- C10: a zero-byte model file is never tracked, so a load over such files
succeeds with the file absent from the tracked set, and any later filesystem
change at that path (writing content, advancing its mtime, deleting it)
leaves `reload_needed` unchanged. -/
theorem claim_C10 (fqn : String → String) (files : List (String × Nat)) (p : String)
    (hp : ∀ s, (p, s) ∈ files → s = 0)
    (recorded : String → Nat) (fs : String → Option Nat) (v : Option Nat) :
    ∃ models tracked,
      load_sql_models (fun q => .ok (fqn q)) files = .ok (models, tracked) ∧
      p ∉ tracked ∧
      reload_needed (tracked.map fun q => (q, recorded q)) (Function.update fs p v) =
        reload_needed (tracked.map fun q => (q, recorded q)) fs := by
  refine ⟨_, _, load_sql_models_ok fqn files, ?_, ?_⟩
  · intro hmem
    simp only [List.mem_map, List.mem_filter] at hmem
    obtain ⟨⟨q, s⟩, ⟨hin, hs⟩, rfl⟩ := hmem
    rw [hp s hin] at hs
    simp at hs
  · apply any_congr_mem
    intro pm hpm
    simp only [List.map_map, List.mem_map, List.mem_filter, Function.comp] at hpm
    obtain ⟨⟨q, s⟩, ⟨hin, hs⟩, rfl⟩ := hpm
    have hne : q ≠ p := by
      intro hqp
      subst hqp
      rw [hp s hin] at hs
      simp at hs
    simp [isStale, Function.update_noteq hne]

/-- C10 (witness): after loading a project in which `empty.sql` is empty,
giving `empty.sql` any new on-disk state does not change `reload_needed`. -/
theorem claim_C10_witness :
    ∃ models tracked,
      load_sql_models (fun q => (.ok ("db." ++ q) : Except String String))
        [("empty.sql", 0), ("m.sql", 3)] = .ok (models, tracked) ∧
      "empty.sql" ∉ tracked ∧
      reload_needed (tracked.map fun q => (q, 7))
          (Function.update (fun _ => some 7) "empty.sql" (some 99)) =
        reload_needed (tracked.map fun q => (q, 7)) (fun _ => some 7) :=
  claim_C10 (fun q => "db." ++ q) [("empty.sql", 0), ("m.sql", 3)] "empty.sql"
    (by
      intro s h
      simp at h
      omega)
    (fun _ => 7) (fun _ => some 7) (some 99)

end SqlMesh
